import Mathlib

/-!
Shallow embedding of `src/app_redis.py`, a Streamlit chat front end that
binds a per-browser-session identifier to a Redis-backed message history.

The Streamlit `st.session_state` dictionary is modelled by the record
`AppState`; the sidebar button handlers ("new session id", "clear messages")
and the `st.chat_input` handler become state-transforming functions.  The
external collaborators (the LLM chain built with `RunnableWithMessageHistory`
and the Redis store it writes through) are opaque: a submission is
parameterised by the collaborator outcome (`Except Unit String`: either the
final response text or a raised exception), and the calls the handler makes
are recorded in an event trace.
-/

namespace AppRedis

/-- One chat turn as kept in `st.session_state["messages"]`
(`langchain_core.messages.ChatMessage(role=..., content=...)`). -/
structure ChatMessage where
  role : String
  content : String
deriving Repr, DecidableEq

/-- In-memory history object (`langchain_community ChatMessageHistory`):
an append-only list of messages.  A freshly constructed one is empty. -/
structure ChatMessageHistory where
  messages : List ChatMessage
deriving Repr, DecidableEq

/-- The in-memory dictionary `st.session_state["store"]`, mapping a session
id to its `ChatMessageHistory`. -/
abbrev Store := List (String × ChatMessageHistory)

/-- `REDIS_URL = "redis://localhost:6379/0"` (app_redis.py line 57). -/
def REDIS_URL : String := "redis://localhost:6379/0"

/-- The object returned by `RedisChatMessageHistory(session_id, url=REDIS_URL)`:
it records the session id and the store url (app_redis.py lines 83-102). -/
structure RedisChatMessageHistory where
  session_id : String
  url : String
deriving Repr, DecidableEq

/-- Redis key of a `RedisChatMessageHistory`: the class keeps the fixed key
namespace `"message_store"` and forms `f"{key_namespace}:{session_id}"`
(the commented-out class sketch at app_redis.py lines 84-89, matching the
library default). -/
def RedisChatMessageHistory.redis_key (h : RedisChatMessageHistory) : String :=
  "message_store" ++ ":" ++ h.session_id

/-- `get_redis_message_history` (app_redis.py lines 91-102): constructs and
returns the `RedisChatMessageHistory` for a session id.  The source performs
no validation of `session_id` and has no raise statement, so the embedding is
a total function. -/
def get_redis_message_history (session_id : String) : RedisChatMessageHistory :=
  { session_id := session_id, url := REDIS_URL }

/-- The history key handed to the persistence collaborator for a token:
the redis key of the history object built from it. -/
def deriveHistoryKey (session_id : String) : String :=
  (get_redis_message_history session_id).redis_key

/-- The part of `st.session_state` the program reads and writes:
`store` (in-memory histories), `session_initialized`, `session_id` and
`messages` (the displayed transcript).  `session_id` starts out as the
Python literal `False` (app_redis.py line 77) and is only ever overwritten
with a uuid string; `none` models `False`, `some s` models the string `s`. -/
structure AppState where
  store : Store
  session_initialized : Bool
  session_id : Option String
  messages : List ChatMessage
deriving Repr, DecidableEq

/-- The initial `st.session_state` after the initialisation block
(app_redis.py lines 68-77): empty store, `session_initialized = False`,
`session_id = False`; `messages` is set to the empty list by
`init_conversation()` (line 142) before any turn is displayed. -/
def initState : AppState :=
  { store := [], session_initialized := false, session_id := none, messages := [] }

/-- Python truthiness of the `session_id` slot: the literal `False` is falsy,
a string is truthy iff it is non-empty. -/
def pyTruthy : Option String → Bool
  | none => false
  | some s => s != ""

/-- `session_valid()` (app_redis.py lines 109-112):
`if not session_initialized or not session_id: return False; return True`. -/
def session_valid (s : AppState) : Bool :=
  if !s.session_initialized || !pyTruthy s.session_id then false else true

/-- Hex digit character, lowercase, as Python renders uuids. -/
def hexChar (n : Nat) : Char :=
  if n < 10 then Char.ofNat (48 + n) else Char.ofNat (87 + n)

/-- Zero-padded big-endian hex rendering of `n` to exactly `w` digits. -/
def hexPad : Nat → Nat → List Char
  | _, 0 => []
  | n, w + 1 => hexPad (n / 16) w ++ [hexChar (n % 16)]

/-- Canonical string form of a 128-bit uuid value, as produced by
`str(uuid.uuid4())`: 32 lowercase hex digits in groups of 8-4-4-4-12
separated by hyphens.  The argument is the (random) 128-bit integer. -/
def uuid4_canonical (r : Nat) : String :=
  let h := hexPad (r % 2 ^ 128) 32
  String.mk (h.take 8 ++ '-' :: (h.drop 8).take 4 ++ '-' :: (h.drop 12).take 4
    ++ '-' :: (h.drop 16).take 4 ++ '-' :: h.drop 20)

/-- The "new session id" button handler (app_redis.py lines 121-126):
`new_session_id = str(uuid.uuid4())`, store it in `session_id`, set
`session_initialized = True`.  The randomness source is the parameter `r`,
the 128-bit value drawn by `uuid.uuid4()`. -/
def mint (s : AppState) (r : Nat) : AppState :=
  { s with session_id := some (uuid4_canonical r), session_initialized := true }

/-- The "clear messages" button handler (app_redis.py lines 132-136):
`st.session_state["messages"] = []` followed by `st.rerun()`; no other
slot of the session state is touched. -/
def clear_space (s : AppState) : AppState :=
  { s with messages := [] }

/-- `get_session_history` (app_redis.py lines 149-165): in-memory
get-or-create lookup.  `if session_id not in store: store[session_id] =
ChatMessageHistory(); return store[session_id]`.  Returns the updated store
together with the history handed back to the caller. -/
def get_session_history (store : Store) (session_id : String) :
    Store × ChatMessageHistory :=
  match store.lookup session_id with
  | some h => (store, h)
  | none => ((session_id, ChatMessageHistory.mk []) :: store, ChatMessageHistory.mk [])

/-- Observable calls the chat-input handler makes: the `st.warning` banner of
the invalid-session branch, and the single collaborator call
`chain_with_memory.invoke({"question": ...}, config={"configurable":
{"session_id": ...}})`, which performs the model call and, through
`get_redis_message_history`, every persistence read/write of the turn. -/
inductive Event where
  | warning
  | modelInvoke (session_id : Option String) (question : String)
deriving Repr, DecidableEq

/-- How one run of the chat-input handler ended. -/
inductive SubmitResult where
  | noInput
  | warned
  | raised
  | answered
deriving Repr, DecidableEq

/-- The `st.chat_input` handler (app_redis.py lines 171-248).
`if user_input := st.chat_input(...)` runs the body only for a truthy
(non-empty) input.  Invalid session: debug prints and one `st.warning`,
nothing else.  Valid session: append the user `ChatMessage`, then call
`chain_with_memory.invoke` (outcome supplied as `model`); if it raises, the
exception propagates with the user turn already appended; otherwise append
the assistant `ChatMessage` with `response.content`. -/
def chat_input_handler (s : AppState) (user_input : String)
    (model : Except Unit String) : AppState × List Event × SubmitResult :=
  if user_input == "" then (s, [], .noInput)
  else if session_valid s = false then (s, [Event.warning], .warned)
  else
    let s1 := { s with messages := s.messages ++ [ChatMessage.mk "user" user_input] }
    match model with
    | .error _ => (s1, [Event.modelInvoke s.session_id user_input], .raised)
    | .ok resp =>
        ({ s1 with messages := s1.messages ++ [ChatMessage.mk "assistant" resp] },
          [Event.modelInvoke s.session_id user_input], .answered)

/-- One user-triggered operation of the running app: the mint button, the
clear button, or a chat submission (with its collaborator outcome). -/
inductive Op where
  | mintOp (r : Nat)
  | clearOp
  | submitOp (input : String) (model : Except Unit String)

/-- State reached after one operation. -/
def applyOp (s : AppState) : Op → AppState
  | .mintOp r => mint s r
  | .clearOp => clear_space s
  | .submitOp input model => (chat_input_handler s input model).1

/-- State reached after a sequence of operations. -/
def runOps (s : AppState) (ops : List Op) : AppState :=
  ops.foldl applyOp s

/-! ## Helper lemmas -/

theorem hexPad_length (w : Nat) : ∀ n : Nat, (hexPad n w).length = w := by
  induction w with
  | zero => intro n; rfl
  | succ w ih => intro n; simp [hexPad, ih]

theorem uuid4_canonical_length (r : Nat) : (uuid4_canonical r).length = 36 := by
  simp [uuid4_canonical, String.length, hexPad_length]

theorem uuid4_canonical_ne_empty (r : Nat) : uuid4_canonical r ≠ "" := by
  intro h
  have h36 := uuid4_canonical_length r
  rw [h] at h36
  simp [String.length] at h36

theorem string_append_cancel_left (p s t : String) (h : p ++ s = p ++ t) : s = t := by
  cases p with
  | mk pd =>
    cases s with
    | mk sd =>
      cases t with
      | mk td =>
        simp [String.ext_iff, String.data_append] at h ⊢
        exact h

theorem session_valid_eq_and (s : AppState) :
    session_valid s = (s.session_initialized && pyTruthy s.session_id) := by
  cases h1 : s.session_initialized <;> cases h2 : pyTruthy s.session_id <;>
    simp [session_valid, h1, h2]

theorem chat_input_handler_initialized (s : AppState) (input : String)
    (model : Except Unit String) :
    (chat_input_handler s input model).1.session_initialized = s.session_initialized := by
  unfold chat_input_handler
  by_cases hb : input == "" <;> cases model <;>
    by_cases hv : session_valid s = false <;> simp [hb, hv]

theorem chat_input_handler_snd_congr (s t : AppState) (input : String)
    (model : Except Unit String)
    (h1 : s.session_initialized = t.session_initialized)
    (h2 : s.session_id = t.session_id) :
    (chat_input_handler s input model).2 = (chat_input_handler t input model).2 := by
  have hv : session_valid s = session_valid t := by
    unfold session_valid; rw [h1, h2]
  unfold chat_input_handler
  rw [hv, h2]
  by_cases hb : input == "" <;> cases model <;>
    by_cases hv2 : session_valid t = false <;> simp [hb, hv2]

/-! ## Claims -/

/-- C3 (counterexample): `deriveHistoryKey` applied to the empty token does
not fail — `get_redis_message_history ""` returns a history object (its
embedding is total because the source has no validation and no raise
statement), and the derived key is the namespace and separator alone,
`"message_store:"`. -/
theorem C3_empty_token_returns_key :
    get_redis_message_history "" = RedisChatMessageHistory.mk "" REDIS_URL ∧
    deriveHistoryKey "" = "message_store:" := by
  constructor <;> rfl

/-- C3 (amended): `deriveHistoryKey` performs no validation at all: for every
token, the empty token included, it returns (never fails with
`InvalidArgument`) the key formed from the fixed namespace segment, the
separator and the token verbatim. -/
theorem C3_amended_no_validation (session_id : String) :
    deriveHistoryKey session_id = "message_store" ++ ":" ++ session_id := rfl

/-- C4: `deriveHistoryKey` is a pure deterministic function of the token —
equal tokens give equal keys, every key is the fixed namespace segment, a
separator and the token verbatim, and distinct tokens give distinct keys
(injectivity). -/
theorem C4_deriveHistoryKey_pure_injective :
    (∀ t1 t2 : String, t1 = t2 → deriveHistoryKey t1 = deriveHistoryKey t2) ∧
    (∀ t : String, deriveHistoryKey t = "message_store" ++ ":" ++ t) ∧
    (∀ t1 t2 : String, t1 ≠ t2 → deriveHistoryKey t1 ≠ deriveHistoryKey t2) := by
  refine ⟨fun t1 t2 h => by rw [h], fun t => rfl, fun t1 t2 hne hkey => hne ?_⟩
  have h1 : ("message_store" ++ ":") ++ t1 = ("message_store" ++ ":") ++ t2 := by
    simpa [deriveHistoryKey, get_redis_message_history,
      RedisChatMessageHistory.redis_key, String.append_assoc] using hkey
  exact string_append_cancel_left _ _ _ h1

/-- C4 (witness): the injectivity conjunct applied at the concrete distinct
tokens `"a"` and `"b"`. -/
theorem C4_witness : ("a" : String) ≠ "b" ∧ deriveHistoryKey "a" ≠ deriveHistoryKey "b" :=
  ⟨by decide, C4_deriveHistoryKey_pure_injective.2.2 "a" "b" (by decide)⟩

/-- C5: `session_valid()` is a pure predicate returning true iff
`session_initialized` is true and `session_id` is present (not the initial
`False` and not the empty string); it is false in the initial state and true
immediately after any mint. -/
theorem C5_session_valid_spec :
    (∀ s : AppState, session_valid s = (s.session_initialized && pyTruthy s.session_id)) ∧
    session_valid initState = false ∧
    (∀ (s : AppState) (r : Nat), session_valid (mint s r) = true) := by
  refine ⟨session_valid_eq_and, rfl, fun s r => ?_⟩
  have hne : uuid4_canonical r ≠ "" := uuid4_canonical_ne_empty r
  simp [session_valid, mint, pyTruthy, hne]

/-- C1: a submission (non-empty input) while the session is invalid leaves
the whole state — in particular the displayed transcript — unchanged, emits
exactly one warning event, and emits no collaborator event (the model /
persistence call `modelInvoke` does not occur). -/
theorem C1_invalid_submit_noop (s : AppState) (input : String)
    (model : Except Unit String) (hin : input ≠ "") (hv : session_valid s = false) :
    (chat_input_handler s input model).1 = s ∧
    (chat_input_handler s input model).1.messages = s.messages ∧
    (chat_input_handler s input model).2.1 = [Event.warning] := by
  have hb : (input == "") = false := by simp [hin]
  refine ⟨?_, ?_, ?_⟩ <;> simp [chat_input_handler, hb, hv]

/-- C1 (witness): the theorem at the initial state (no mint yet) with input
`"hi"` and a collaborator that would answer `"r"`. -/
theorem C1_witness :
    ("hi" : String) ≠ "" ∧ session_valid initState = false ∧
    ((chat_input_handler initState "hi" (Except.ok "r")).1 = initState ∧
     (chat_input_handler initState "hi" (Except.ok "r")).1.messages = initState.messages ∧
     (chat_input_handler initState "hi" (Except.ok "r")).2.1 = [Event.warning]) :=
  ⟨by decide, by decide,
    C1_invalid_submit_noop initState "hi" (Except.ok "r") (by decide) (by decide)⟩

/-- C2: a submission while the session is valid, whose model call returns
`resp`, appends exactly two `ChatMessage`s to the displayed transcript, in
order: first the user turn with the submitted text, then the assistant turn
with the model output. -/
theorem C2_valid_submit_two_turns (s : AppState) (input resp : String)
    (hin : input ≠ "") (hv : session_valid s = true) :
    (chat_input_handler s input (Except.ok resp)).1.messages =
      s.messages ++ [ChatMessage.mk "user" input, ChatMessage.mk "assistant" resp] := by
  have hb : (input == "") = false := by simp [hin]
  simp [chat_input_handler, hb, hv]

/-- C2 (witness): the theorem right after `mint()` on the initial state, with
input `"hello"` and model output `"world"`. -/
theorem C2_witness :
    ("hello" : String) ≠ "" ∧ session_valid (mint initState 0) = true ∧
    (chat_input_handler (mint initState 0) "hello" (Except.ok "world")).1.messages =
      (mint initState 0).messages ++
        [ChatMessage.mk "user" "hello", ChatMessage.mk "assistant" "world"] :=
  ⟨by decide, by decide,
    C2_valid_submit_two_turns (mint initState 0) "hello" "world" (by decide) (by decide)⟩

/-- C9: in a valid-session submission the user turn is appended before the
collaborator is invoked, so when the invocation raises, the transcript has
grown by exactly the user turn (no assistant turn), the exception propagates
(`SubmitResult.raised`), and the collaborator call did happen. -/
theorem C9_user_turn_survives_model_error (s : AppState) (input : String)
    (hin : input ≠ "") (hv : session_valid s = true) :
    (chat_input_handler s input (Except.error ())).1.messages =
      s.messages ++ [ChatMessage.mk "user" input] ∧
    (chat_input_handler s input (Except.error ())).2.2 = SubmitResult.raised ∧
    (chat_input_handler s input (Except.error ())).2.1 =
      [Event.modelInvoke s.session_id input] := by
  have hb : (input == "") = false := by simp [hin]
  refine ⟨?_, ?_, ?_⟩ <;> simp [chat_input_handler, hb, hv]

/-- C9 (witness): the theorem right after `mint()` on the initial state, with
input `"hello"` and a raising collaborator. -/
theorem C9_witness :
    ("hello" : String) ≠ "" ∧ session_valid (mint initState 0) = true ∧
    ((chat_input_handler (mint initState 0) "hello" (Except.error ())).1.messages =
       (mint initState 0).messages ++ [ChatMessage.mk "user" "hello"] ∧
     (chat_input_handler (mint initState 0) "hello" (Except.error ())).2.2 =
       SubmitResult.raised ∧
     (chat_input_handler (mint initState 0) "hello" (Except.error ())).2.1 =
       [Event.modelInvoke (mint initState 0).session_id "hello"]) :=
  ⟨by decide, by decide,
    C9_user_turn_survives_model_error (mint initState 0) "hello" (by decide) (by decide)⟩

/-- C6: the clear action empties the displayed transcript and changes nothing
else: `session_valid` is unchanged, the token and the in-memory store are
unchanged, the history key the token resolves to is unchanged, and a
subsequent submission behaves identically (same events — hence the same
`modelInvoke` session id and history key — and the same outcome). -/
theorem C6_clear_frame (s : AppState) :
    (clear_space s).messages = [] ∧
    session_valid (clear_space s) = session_valid s ∧
    (clear_space s).session_id = s.session_id ∧
    (clear_space s).session_initialized = s.session_initialized ∧
    (clear_space s).store = s.store ∧
    Option.map deriveHistoryKey (clear_space s).session_id =
      Option.map deriveHistoryKey s.session_id ∧
    (∀ (input : String) (model : Except Unit String),
      (chat_input_handler (clear_space s) input model).2 =
        (chat_input_handler s input model).2) :=
  ⟨rfl, rfl, rfl, rfl, rfl, rfl,
    fun input model => chat_input_handler_snd_congr (clear_space s) s input model rfl rfl⟩

/-- C7: `mint()` with random draw `r` sets the token to the canonical uuid
string of `r` and sets `session_initialized` to true, while leaving the
displayed transcript and the in-memory store unchanged — it never implicitly
clears the transcript. -/
theorem C7_mint_frame (s : AppState) (r : Nat) :
    (mint s r).session_id = some (uuid4_canonical r) ∧
    (mint s r).session_initialized = true ∧
    (mint s r).messages = s.messages ∧
    (mint s r).store = s.store :=
  ⟨rfl, rfl, rfl, rfl⟩

/-- C8: once `session_initialized` is true, no sequence of operations (mint,
clear, submissions with any collaborator outcome) ever makes it false again. -/
theorem C8_initialized_monotone (s : AppState) (ops : List Op)
    (h : s.session_initialized = true) :
    (runOps s ops).session_initialized = true := by
  induction ops generalizing s with
  | nil => exact h
  | cons op ops ih =>
    refine ih (applyOp s op) ?_
    cases op with
    | mintOp r => rfl
    | clearOp => exact h
    | submitOp input model =>
      show (chat_input_handler s input model).1.session_initialized = true
      rw [chat_input_handler_initialized]; exact h

/-- C8 (witness): after an initial mint, a run of clear, a successful
submission, a fresh mint and a raising submission still leaves
`session_initialized` true. -/
theorem C8_witness :
    (mint initState 0).session_initialized = true ∧
    (runOps (mint initState 0)
      [Op.clearOp, Op.submitOp "hi" (Except.ok "r"), Op.mintOp 1,
       Op.submitOp "x" (Except.error ())]).session_initialized = true :=
  ⟨rfl, C8_initialized_monotone (mint initState 0)
    [Op.clearOp, Op.submitOp "hi" (Except.ok "r"), Op.mintOp 1,
     Op.submitOp "x" (Except.error ())] rfl⟩

/-- C10: `get_session_history` is get-or-create: it returns the stored
history when present (and a new empty one otherwise), calling it again on the
resulting store returns exactly the same store and history (idempotence), and
in the resulting store the entry of the requested id is the returned history
while every other id's entry is untouched. -/
theorem C10_get_session_history_get_or_create (store : Store) (sid : String) :
    (get_session_history store sid).2 =
      (store.lookup sid).getD (ChatMessageHistory.mk []) ∧
    get_session_history (get_session_history store sid).1 sid =
      ((get_session_history store sid).1, (get_session_history store sid).2) ∧
    (∀ k : String, ((get_session_history store sid).1).lookup k =
      if k = sid then some (get_session_history store sid).2 else store.lookup k) := by
  cases hl : store.lookup sid with
  | some h =>
    refine ⟨by simp [get_session_history, hl], by simp [get_session_history, hl], ?_⟩
    intro k
    by_cases hk : k = sid
    · subst hk; simp [get_session_history, hl]
    · simp [get_session_history, hl, hk]
  | none =>
    refine ⟨by simp [get_session_history, hl], ?_, ?_⟩
    · simp [get_session_history, hl, List.lookup]
    · intro k
      by_cases hk : k = sid
      · subst hk; simp [get_session_history, hl, List.lookup]
      · have hb : (k == sid) = false := by simp [hk]
        simp [get_session_history, hl, List.lookup, hb, hk]

end AppRedis
